import Mathlib

/-!
Shallow embedding of the Ready Trader Go auto-trader strategies of this
repository (`trader-3.cc`/`trader-3.h` and `trader-2.cc`), together with
theorems settling the specification claims about them.

Machine integers: C++ `unsigned long` values are modelled as `ℕ`; at the
places where unsigned wraparound is semantically reachable (subtraction
that can underflow) we wrap explicitly modulo `2 ^ 64`.  Signed `long`/`int`
values are modelled as `ℤ` (signed overflow is undefined behaviour in the
source and is not modelled); signed division uses `Int.tdiv`, which
truncates toward zero exactly like C++ division.  Wall-clock times
(`std::time`, a `double` holding seconds) are modelled as `ℚ`.
-/

/-- The value `2 ^ 64`, the modulus of C++ `unsigned long` arithmetic. -/
def U64 : ℕ := 2 ^ 64

/-- C++ `unsigned long` subtraction `a - b`, which wraps modulo `2 ^ 64`
(exact for operands below `2 ^ 64`). -/
def usub64 (a b : ℕ) : ℕ := (a + (U64 - b % U64)) % U64

namespace Trader3

/-- Constant `constexpr int LOT_SIZE = 20` (trader-3.cc line 29). -/
def LOT_SIZE : ℕ := 20

/-- Constant `constexpr int POSITION_LIMIT = 100` (trader-3.cc line 30). -/
def POSITION_LIMIT : ℤ := 100

/-- Constant `constexpr int ARBITRAGE_LIMIT = 20` (trader-3.cc line 31). -/
def ARBITRAGE_LIMIT : ℤ := 20

/-- Constant `constexpr int TICK_SIZE_IN_CENTS = 100` (trader-3.cc line 32). -/
def TICK_SIZE_IN_CENTS : ℕ := 100

/-- Modelled from the spec: the venue minimum tradable price (`MINIMUM_BID`
from the missing header `ready_trader_go/types.h`; the spec only requires the
hedge price to be the most aggressive acceptable tick, and no claim depends on
the numeric value). -/
def MINIMUM_BID : ℕ := 1

/-- Modelled from the spec: the venue maximum tradable price (`MAXIMUM_ASK`
from the missing header `ready_trader_go/types.h`; no claim depends on the
numeric value). -/
def MAXIMUM_ASK : ℕ := 999999900

/-- Constant `(MINIMUM_BID + TICK_SIZE_IN_CENTS) / TICK_SIZE_IN_CENTS * TICK_SIZE_IN_CENTS`
(trader-3.cc line 33). -/
def MIN_BID_NEARST_TICK : ℕ :=
  (MINIMUM_BID + TICK_SIZE_IN_CENTS) / TICK_SIZE_IN_CENTS * TICK_SIZE_IN_CENTS

/-- Constant `MAXIMUM_ASK / TICK_SIZE_IN_CENTS * TICK_SIZE_IN_CENTS` (trader-3.cc line 34). -/
def MAX_ASK_NEAREST_TICK : ℕ :=
  MAXIMUM_ASK / TICK_SIZE_IN_CENTS * TICK_SIZE_IN_CENTS

/-- Order side (`ReadyTraderGo::Side`). -/
inductive Side
  | buy
  | sell
  deriving DecidableEq, Repr

/-- Order lifespan (`ReadyTraderGo::Lifespan`). -/
inductive Lifespan
  | goodForDay
  | fillAndKill
  deriving DecidableEq, Repr

/-- The traded instrument (`ReadyTraderGo::Instrument`). -/
inductive Instrument
  | future
  | etf
  deriving DecidableEq, Repr

/-- Outbound commands issued to the session layer (`SendInsertOrder`,
`SendCancelOrder`, `SendHedgeOrder`). -/
inductive Command
  | insertOrder (id : ℕ) (side : Side) (price : ℕ) (volume : ℕ) (lifespan : Lifespan)
  | cancelOrder (id : ℕ)
  | hedgeOrder (id : ℕ) (side : Side) (price : ℕ) (volume : ℕ)
  deriving DecidableEq, Repr

/-- The mutable fields of `AutoTrader` (trader-3.h lines 145-162).  The
order ledgers `mAsks`/`mBids` (`std::unordered_map<unsigned long, unsigned long>`,
id to price) are modelled as association lists; the pending hedge sets
(`std::unordered_set<unsigned long>`) as `Finset ℕ`; the timestamp deque as a
`List ℚ` with the front at the head. -/
structure State where
  mNextMessageId : ℕ
  mPosition : ℤ
  mAsks : List (ℕ × ℕ)
  mBids : List (ℕ × ℕ)
  futureBid : ℕ
  futureAsk : ℕ
  delta : ℤ
  msgSeq : ℕ
  orderTimestamps : List ℚ
  hedgeBid : Finset ℕ
  hedgeAsk : Finset ℕ
  deriving DecidableEq

/-- The freshly constructed `AutoTrader` (all members value-initialised as in
trader-3.h; `mNextMessageId = 1`). -/
def initState : State :=
  { mNextMessageId := 1, mPosition := 0, mAsks := [], mBids := [],
    futureBid := 0, futureAsk := 0, delta := 0, msgSeq := 0,
    orderTimestamps := [], hedgeBid := ∅, hedgeAsk := ∅ }

/-- Operation `unordered_map::count(k)` as a Bool: does the ledger hold an order with
this id? -/
def hasKey (m : List (ℕ × ℕ)) (k : ℕ) : Bool :=
  m.any (fun kv => kv.1 == k)

/-- Assignment `m[k] = v` on `std::unordered_map`: assign in place if the key exists,
otherwise add the binding. -/
def mapAssign (m : List (ℕ × ℕ)) (k v : ℕ) : List (ℕ × ℕ) :=
  if hasKey m k then m.map (fun kv => if kv.1 == k then (k, v) else kv)
  else m ++ [(k, v)]

/-- Operation `unordered_map::erase(k)`: remove the binding for `k`. -/
def mapErase (m : List (ℕ × ℕ)) (k : ℕ) : List (ℕ × ℕ) :=
  m.filter (fun kv => kv.1 != k)

/-- Rational subtraction written through `Rat.divInt` so that it evaluates by
kernel reduction (the library's `Rat.sub` is `@[irreducible]`); `ratSub_eq`
below proves it IS ordinary subtraction on `ℚ`. -/
def ratSub (a b : ℚ) : ℚ :=
  Rat.divInt (a.num * b.den - b.num * a.den) (a.den * b.den)

/-- The eviction bound of `checkMessageLimit`: timestamps older than
`current_time - 1.01` are dropped (trader-3.cc line 58); the constant `1.01`
(seconds), written through `Rat.divInt` for reducibility;
`messageWindow_eq` below proves it equals `101 / 100`. -/
def messageWindow : ℚ := Rat.divInt 101 100

/-- Function `AutoTrader::checkMessageLimit` (trader-3.cc lines 56-66), acting on the
timestamp deque: pop expired front entries, refuse if 50 timestamps remain,
otherwise record the new timestamp and admit.  The C++ pop-front loop stops at
the first non-expired front entry, which is exactly `List.dropWhile`. -/
def checkMessageLimit (now : ℚ) (q : List ℚ) : Bool × List ℚ :=
  let q1 := q.dropWhile (fun t => decide (t < ratSub now messageWindow))
  if 50 ≤ q1.length then (false, q1) else (true, q1 ++ [now])

/-- Run a sequence of `checkMessageLimit` calls (one per element of `calls`,
each element being the wall-clock time of that call) against an initial
timestamp deque.  Returns the list of call times that were admitted together
with the final deque. -/
def runLimiter : List ℚ → List ℚ → List ℚ × List ℚ
  | [], q => ([], q)
  | t :: ts, q =>
      let c := checkMessageLimit t q
      let rest := runLimiter ts c.2
      (if c.1 then t :: rest.1 else rest.1, rest.2)

/-- Function `AutoTrader::sendBidOrder` (trader-3.cc lines 68-77). -/
def sendBidOrder (now : ℚ) (price : ℕ) (volume : ℤ) (lifespanType : Lifespan)
    (s : State) : Bool × State × List Command :=
  let c := checkMessageLimit now s.orderTimestamps
  let s1 := { s with orderTimestamps := c.2 }
  if c.1 then
    let bidId := s1.mNextMessageId
    (true,
      { s1 with mNextMessageId := bidId + 1, mBids := mapAssign s1.mBids bidId price },
      [Command.insertOrder bidId Side.buy price volume.toNat lifespanType])
  else (false, s1, [])

/-- Function `AutoTrader::sendAskOrder` (trader-3.cc lines 79-88). -/
def sendAskOrder (now : ℚ) (price : ℕ) (volume : ℤ) (lifespanType : Lifespan)
    (s : State) : Bool × State × List Command :=
  let c := checkMessageLimit now s.orderTimestamps
  let s1 := { s with orderTimestamps := c.2 }
  if c.1 then
    let askId := s1.mNextMessageId
    (true,
      { s1 with mNextMessageId := askId + 1, mAsks := mapAssign s1.mAsks askId price },
      [Command.insertOrder askId Side.sell price volume.toNat lifespanType])
  else (false, s1, [])

/-- Function `AutoTrader::sendHedgeOrder` (trader-3.cc lines 90-104).  The C++ function
busy-waits (`sleep_for(100ms)` and retry) until the rate limiter admits;
the retries are modelled by fuel, each retry advancing the clock by `1/10`
second.  `none` models a send still waiting after `fuel` attempts. -/
def sendHedgeOrder (price volume : ℕ) (side : Side) :
    ℕ → ℚ → State → Option (State × List Command)
  | 0, _, _ => none
  | fuel + 1, now, s =>
      let c := checkMessageLimit now s.orderTimestamps
      let s1 := { s with orderTimestamps := c.2 }
      if c.1 then
        let orderId := s1.mNextMessageId
        let s2 :=
          { s1 with
            mNextMessageId := orderId + 1,
            hedgeBid := if side = Side.buy then insert orderId s1.hedgeBid else s1.hedgeBid,
            hedgeAsk := if side = Side.buy then s1.hedgeAsk else insert orderId s1.hedgeAsk }
        some (s2, [Command.hedgeOrder orderId side price volume])
      else sendHedgeOrder price volume side fuel (now + 1 / 10) s1

/-- Function `AutoTrader::sendCancelOrder` (trader-3.cc lines 106-113). -/
def sendCancelOrder (now : ℚ) (orderId : ℕ) (s : State) : Bool × State × List Command :=
  let c := checkMessageLimit now s.orderTimestamps
  let s1 := { s with orderTimestamps := c.2 }
  if c.1 then (true, s1, [Command.cancelOrder orderId])
  else (false, s1, [])

/-- Iterate one of the trader's cancellation sweeps: walk an order ledger and
request a cancel (rate-limited) for every order whose price satisfies `p`. -/
def cancelSweep (now : ℚ) (p : ℕ → Bool) :
    List (ℕ × ℕ) → State × List Command → State × List Command
  | [], acc => acc
  | kv :: rest, acc =>
      if p kv.2 then
        let r := sendCancelOrder now kv.1 acc.1
        cancelSweep now p rest (r.2.1, acc.2 ++ r.2.2)
      else cancelSweep now p rest acc

/-- Function `AutoTrader::trimOrder` (trader-3.cc lines 115-127): cancel bids above the
future ask and asks below the future bid. -/
def trimOrder (now : ℚ) (s : State) : State × List Command :=
  let r1 := cancelSweep now (fun bid => decide (s.futureAsk < bid)) s.mBids (s, [])
  cancelSweep now (fun ask => decide (ask < s.futureBid)) s.mAsks r1

/-- Function `AutoTrader::handleArbitrage` (trader-3.cc lines 129-148). -/
def handleArbitrage (now : ℚ)
    (askPrices askVolumes bidPrices bidVolumes : Fin 5 → ℕ)
    (s : State) : State × List Command :=
  if askPrices 0 < s.futureBid then
    let buy_volume : ℤ := min (askVolumes 0 : ℤ) (ARBITRAGE_LIMIT - s.mPosition)
    let buy_price := askPrices 0
    if 0 < buy_volume then
      let r := sendBidOrder now buy_price buy_volume Lifespan.fillAndKill s
      (r.2.1, r.2.2)
    else (s, [])
  else if s.futureAsk < bidPrices 0 then
    let sell_volume : ℤ := min (bidVolumes 0 : ℤ) (ARBITRAGE_LIMIT + s.mPosition)
    let sell_price := bidPrices 0
    if 0 < sell_volume then
      let r := sendAskOrder now sell_price sell_volume Lifespan.fillAndKill s
      (r.2.1, r.2.2)
    else (s, [])
  else (s, [])

/-- The level-scan loop of `clearBook` (trader-3.cc lines 159-173): accumulate
volumes level by level and, as soon as the running total reaches
`3 * LOT_SIZE`, return the price at that level; if the threshold is never
reached the cutoff stays at the deepest price (`prices.back()`). -/
def cutoffScan (prices vols : Fin 5 → ℕ) : List (Fin 5) → ℕ → ℕ
  | [], _ => prices 4
  | i :: rest, acc =>
      let acc1 := acc + vols i
      if 3 * LOT_SIZE ≤ acc1 then prices i else cutoffScan prices vols rest acc1

/-- The cutoff price computed by one of `clearBook`'s accumulation loops. -/
def cutoff (prices vols : Fin 5 → ℕ) : ℕ :=
  cutoffScan prices vols [0, 1, 2, 3, 4] 0

/-- Function `AutoTrader::clearBook` (trader-3.cc lines 150-186), as a function of its
four parameters in declaration order: cancel resting bids priced at or below
the bid cutoff and resting asks priced at or above the ask cutoff. -/
def clearBook (now : ℚ)
    (askPrices askVolumes bidPrices bidVolumes : Fin 5 → ℕ)
    (s : State) : State × List Command :=
  let cutoff_ask := cutoff askPrices askVolumes
  let cutoff_bid := cutoff bidPrices bidVolumes
  let r1 := cancelSweep now (fun bid => decide (bid ≤ cutoff_bid)) s.mBids (s, [])
  cancelSweep now (fun ask => decide (cutoff_ask ≤ ask)) s.mAsks r1

/-- The ask-side placement loop of `handleMarketMaking` (trader-3.cc lines
201-214): step through `steps` price levels starting at `i`, placing a
`LOT_SIZE` ask at each level not already quoted while the budget lasts (the
budget is decremented whether or not the rate limiter admitted the send,
exactly as in the source, which ignores `sendAskOrder`'s return value). -/
def mmAskLoop (now : ℚ) :
    ℕ → ℕ → ℤ → State × List Command → State × List Command
  | 0, _, _, acc => acc
  | steps + 1, i, budget, acc =>
      let found := acc.1.mAsks.any (fun kv => kv.2 == i)
      if ¬found ∧ 0 < budget then
        let r := sendAskOrder now i (LOT_SIZE : ℤ) Lifespan.goodForDay acc.1
        mmAskLoop now steps (i + TICK_SIZE_IN_CENTS) (budget - 1) (r.2.1, acc.2 ++ r.2.2)
      else mmAskLoop now steps (i + TICK_SIZE_IN_CENTS) budget acc

/-- The bid-side placement loop of `handleMarketMaking` (trader-3.cc lines
216-229), mirror of `mmAskLoop`. -/
def mmBidLoop (now : ℚ) :
    ℕ → ℕ → ℤ → State × List Command → State × List Command
  | 0, _, _, acc => acc
  | steps + 1, i, budget, acc =>
      let found := acc.1.mBids.any (fun kv => kv.2 == i)
      if ¬found ∧ 0 < budget then
        let r := sendBidOrder now i (LOT_SIZE : ℤ) Lifespan.goodForDay acc.1
        mmBidLoop now steps (i + TICK_SIZE_IN_CENTS) (budget - 1) (r.2.1, acc.2 ++ r.2.2)
      else mmBidLoop now steps (i + TICK_SIZE_IN_CENTS) budget acc

/-- Number of iterations of a C++ loop `for (i = start; i < stop; i += step)`
over unsigned values. -/
def loopSteps (start stop step : ℕ) : ℕ :=
  (stop - start + (step - 1)) / step

/-- Function `AutoTrader::handleMarketMaking` (trader-3.cc lines 188-230).  Note line
192 of the source passes its arguments to `clearBook` in the order
`(askPrices, bidPrices, askVolumes, bidVolumes)`, transposing volumes and
prices against `clearBook`'s parameter list; this call is reproduced verbatim. -/
def handleMarketMaking (now : ℚ)
    (askPrices askVolumes bidPrices bidVolumes : Fin 5 → ℕ)
    (s : State) : State × List Command :=
  let r0 := clearBook now askPrices bidPrices askVolumes bidVolumes s
  let s0 := r0.1
  let max_buy_order : ℤ := (POSITION_LIMIT - s0.mPosition).tdiv (LOT_SIZE : ℤ) - s0.mBids.length
  let max_sell_order : ℤ := (s0.mPosition + POSITION_LIMIT).tdiv (LOT_SIZE : ℤ) - s0.mAsks.length
  let max_bid := usub64 s0.futureBid (2 * TICK_SIZE_IN_CENTS)
  let min_ask := (s0.futureAsk + 2 * TICK_SIZE_IN_CENTS) % U64
  let etf_bid := bidPrices 0
  let etf_ask := askPrices 0
  let r1 := mmAskLoop now (loopSteps min_ask etf_ask TICK_SIZE_IN_CENTS) min_ask max_sell_order r0
  mmBidLoop now (loopSteps etf_bid max_bid TICK_SIZE_IN_CENTS) etf_bid max_buy_order r1

/-- Handler `AutoTrader::HedgeFilledMessageHandler` (trader-3.cc lines 232-246). -/
def HedgeFilledMessageHandler (clientOrderId price volume : ℕ) (s : State) :
    State × List Command :=
  if clientOrderId ∈ s.hedgeBid then
    ({ s with hedgeBid := s.hedgeBid.erase clientOrderId, delta := s.delta + volume }, [])
  else if clientOrderId ∈ s.hedgeAsk then
    ({ s with hedgeAsk := s.hedgeAsk.erase clientOrderId, delta := s.delta - volume }, [])
  else (s, [])

/-- Handler `AutoTrader::OrderBookMessageHandler` (trader-3.cc lines 248-285). -/
def OrderBookMessageHandler (now : ℚ) (instrument : Instrument) (sequenceNumber : ℕ)
    (askPrices askVolumes bidPrices bidVolumes : Fin 5 → ℕ)
    (s : State) : State × List Command :=
  let s1 := { s with msgSeq := max s.msgSeq sequenceNumber }
  if sequenceNumber ≠ s1.msgSeq then (s1, [])
  else if bidPrices 0 = 0 ∨ askPrices 0 = 0 then (s1, [])
  else
    match instrument with
    | Instrument.etf =>
        if askPrices 0 < s1.futureBid ∨ s1.futureAsk < bidPrices 0 then
          handleArbitrage now askPrices askVolumes bidPrices bidVolumes s1
        else if s1.futureAsk < askPrices 0 ∧ bidPrices 0 < s1.futureBid then
          handleMarketMaking now askPrices askVolumes bidPrices bidVolumes s1
        else (s1, [])
    | Instrument.future =>
        let s2 := { s1 with futureBid := bidPrices 0, futureAsk := askPrices 0 }
        trimOrder now s2

/-- Handler `AutoTrader::OrderFilledMessageHandler` (trader-3.cc lines 287-307).
`fuel` bounds the hedge-send retry loop (see `sendHedgeOrder`). -/
def OrderFilledMessageHandler (fuel : ℕ) (now : ℚ) (clientOrderId price volume : ℕ)
    (s : State) : Option (State × List Command) :=
  if hasKey s.mBids clientOrderId then
    let s1 := { s with mPosition := s.mPosition + volume, delta := s.delta + volume }
    sendHedgeOrder MIN_BID_NEARST_TICK volume Side.sell fuel now s1
  else if hasKey s.mAsks clientOrderId then
    let s1 := { s with mPosition := s.mPosition - volume, delta := s.delta - volume }
    sendHedgeOrder MAX_ASK_NEAREST_TICK volume Side.buy fuel now s1
  else some (s, [])

/-- Handler `AutoTrader::OrderStatusMessageHandler` (trader-3.cc lines 309-328). -/
def OrderStatusMessageHandler (clientOrderId fillVolume remainingVolume : ℕ) (fees : ℤ)
    (s : State) : State :=
  if remainingVolume = 0 then
    { s with mAsks := mapErase s.mAsks clientOrderId, mBids := mapErase s.mBids clientOrderId }
  else s

/-- An external event delivered to the trader.  Book updates and fills carry
the wall-clock time at which they are processed (the value `std::time` returns
during the handler). -/
inductive Event
  | bookUpdate (time : ℚ) (instrument : Instrument) (sequenceNumber : ℕ)
      (askPrices askVolumes bidPrices bidVolumes : Fin 5 → ℕ)
  | orderFilled (time : ℚ) (clientOrderId price volume : ℕ)
  | orderStatus (clientOrderId fillVolume remainingVolume : ℕ) (fees : ℤ)
  | hedgeFilled (clientOrderId price volume : ℕ)

/-- Dispatch one external event to its handler. -/
def step (fuel : ℕ) : Event → State → Option (State × List Command)
  | Event.bookUpdate t instr seq ap av bp bv, s =>
      some (OrderBookMessageHandler t instr seq ap av bp bv s)
  | Event.orderFilled t id price volume, s =>
      OrderFilledMessageHandler fuel t id price volume s
  | Event.orderStatus id fv rv fees, s =>
      some (OrderStatusMessageHandler id fv rv fees s, [])
  | Event.hedgeFilled id price volume, s =>
      some (HedgeFilledMessageHandler id price volume s)

/-- Run a sequence of external events from a state, accumulating all outbound
commands; `none` if a mandatory hedge send was still throttled after `fuel`
retries. -/
def run (fuel : ℕ) : List Event → State → Option (State × List Command)
  | [], s => some (s, [])
  | e :: es, s =>
      match step fuel e s with
      | none => none
      | some (s1, cmds) =>
          match run fuel es s1 with
          | none => none
          | some (s2, cmds2) => some (s2, cmds ++ cmds2)

end Trader3

namespace Trader2

open Trader3 (Side Lifespan Instrument Command)

/-- Constant `constexpr int LOT_SIZE = 10` (trader-2.cc line 30). -/
def LOT_SIZE : ℕ := 10

/-- Constant `constexpr int POSITION_LIMIT = 100` (trader-2.cc line 31). -/
def POSITION_LIMIT : ℤ := 100

/-- Constant `constexpr int TICK_SIZE_IN_CENTS = 100` (trader-2.cc line 32). -/
def TICK_SIZE_IN_CENTS : ℕ := 100

/-- The bid-volume entry computed by `AutoTrader::QuoteMaps` (trader-2.cc
lines 240-241): `floor((100 - position - riskFactor)/2.0) - floor(riskFactor/2.0)`,
clamped below at zero.  The C++ `float`/`double` arithmetic is modelled
exactly over `ℚ`. -/
def bid_vol (riskFactor : ℚ) (position : ℤ) : ℤ :=
  let v := Int.floor ((100 - (position : ℚ) - riskFactor) / 2) - Int.floor (riskFactor / 2)
  if v < 0 then 0 else v

/-- The ask-volume entry computed by `AutoTrader::QuoteMaps` (trader-2.cc
lines 243-249): for negative positions `floor((100 - |p| - rf)/2) - floor(rf/2)`,
for non-negative positions `floor((100 + |p| - rf)/2) - floor(rf/2)`, clamped
below at zero. -/
def ask_vol (riskFactor : ℚ) (position : ℤ) : ℤ :=
  let v :=
    if position < 0 then
      Int.floor ((100 - |(position : ℚ)| - riskFactor) / 2) - Int.floor (riskFactor / 2)
    else
      Int.floor ((100 + |(position : ℚ)|- riskFactor) / 2) - Int.floor (riskFactor / 2)
  if v < 0 then 0 else v

/-- Lookup in the precomputed `bid_vol_map` (`std::map<int,int>`, keys
`-100..100`); `operator[]` on a missing key default-constructs `0`. -/
def bid_vol_map (riskFactor : ℚ) (position : ℤ) : ℤ :=
  if -100 ≤ position ∧ position ≤ 100 then bid_vol riskFactor position else 0

/-- Lookup in the precomputed `ask_vol_map`, as `bid_vol_map`. -/
def ask_vol_map (riskFactor : ℚ) (position : ℤ) : ℤ :=
  if -100 ≤ position ∧ position ≤ 100 then ask_vol riskFactor position else 0

/-- The ask-volume formula exactly as the specification states it
(`askVolume(p) = max(0, floor((LIMIT - |p| - riskFactor)/2) - floor(riskFactor/2))`),
for comparison against the source's `ask_vol`. -/
def askVolSpec (riskFactor : ℚ) (position : ℤ) : ℤ :=
  max 0 (Int.floor ((100 - |(position : ℚ)| - riskFactor) / 2) - Int.floor (riskFactor / 2))

/-- The mutable fields of the trader-2 `AutoTrader`.  The header `trader-2.h`
is not part of the sources; the field list and initial values are read off
trader-2.cc's usage, matching the commented-out twin fields in trader-3.h
(ids start at 1, everything else zero/empty).  The order sets `mAsks`/`mBids`
hold ids only (`mAsks.emplace(mAskId)`). -/
structure State where
  mNextMessageId : ℕ
  mAskId : ℕ
  mBidId : ℕ
  mAskPrice : ℕ
  mBidPrice : ℕ
  mAskVolume : ℤ
  mBidVolume : ℤ
  mPosition : ℤ
  mAsks : Finset ℕ
  mBids : Finset ℕ
  deriving DecidableEq

/-- The freshly constructed trader-2 `AutoTrader`. -/
def initState : State :=
  { mNextMessageId := 1, mAskId := 0, mBidId := 0, mAskPrice := 0, mBidPrice := 0,
    mAskVolume := 0, mBidVolume := 0, mPosition := 0, mAsks := ∅, mBids := ∅ }

/-- The theoretical-price computation of `AutoTrader::OrderBookMessageHandler`
(trader-2.cc lines 81-89): if the level-0 bid volume reaches 500 use level 0 of
both sides, else if the cumulative level-0..1 bid volume reaches 500 use levels
0..1, else use levels 0..2; the result is the volume-weighted average price of
the included levels under unsigned integer division.  Arithmetic is exact `ℕ`
arithmetic (no operand near `2 ^ 64` arises for tradable prices and volumes);
a zero denominator is undefined behaviour in C++ and yields 0 here. -/
def theo_price (askPrices askVolumes bidPrices bidVolumes : Fin 5 → ℕ) : ℕ :=
  if 500 ≤ bidVolumes 0 then
    (bidPrices 0 * bidVolumes 0 + askPrices 0 * askVolumes 0) /
      (bidVolumes 0 + askVolumes 0)
  else if 500 ≤ bidVolumes 0 + bidVolumes 1 then
    (bidPrices 0 * bidVolumes 0 + bidPrices 1 * bidVolumes 1 +
        askPrices 0 * askVolumes 0 + askPrices 1 * askVolumes 1) /
      (bidVolumes 0 + askVolumes 0 + bidVolumes 1 + askVolumes 1)
  else
    (bidPrices 0 * bidVolumes 0 + bidPrices 1 * bidVolumes 1 + bidPrices 2 * bidVolumes 2 +
        askPrices 0 * askVolumes 0 + askPrices 1 * askVolumes 1 + askPrices 2 * askVolumes 2) /
      (bidVolumes 0 + askVolumes 0 + bidVolumes 1 + askVolumes 1 + bidVolumes 2 + askVolumes 2)

/-- Value `newBidPrice` (trader-2.cc lines 91-92): `theo_price - 100` when the bid
touch is non-empty (unsigned subtraction, wrapping when `theo_price < 100`),
rounded down to the tick. -/
def newBidPrice (askPrices askVolumes bidPrices bidVolumes : Fin 5 → ℕ) : ℕ :=
  (if bidPrices 0 ≠ 0 then usub64 (theo_price askPrices askVolumes bidPrices bidVolumes) 100
   else 0) / 100 * 100

/-- Value `newAskPrice` (trader-2.cc lines 93-94). -/
def newAskPrice (askPrices askVolumes bidPrices bidVolumes : Fin 5 → ℕ) : ℕ :=
  (if askPrices 0 ≠ 0 then theo_price askPrices askVolumes bidPrices bidVolumes + 100
   else 0) / 100 * 100

/-- The ask-side cancel condition (trader-2.cc line 97): a live tracked ask
whose price drifted more than one tick from the new target (`mAskPrice - 100`
is unsigned and wraps when `mAskPrice < 100`). -/
def cancelAskCond (askPrices askVolumes bidPrices bidVolumes : Fin 5 → ℕ) (s : State) : Bool :=
  let newAsk := newAskPrice askPrices askVolumes bidPrices bidVolumes
  decide (s.mAskId ≠ 0 ∧ newAsk ≠ 0 ∧
    (newAsk < usub64 s.mAskPrice 100 ∨ s.mAskPrice + 100 < newAsk))

/-- The bid-side cancel condition (trader-2.cc line 102). -/
def cancelBidCond (askPrices askVolumes bidPrices bidVolumes : Fin 5 → ℕ) (s : State) : Bool :=
  let newBid := newBidPrice askPrices askVolumes bidPrices bidVolumes
  decide (s.mBidId ≠ 0 ∧ newBid ≠ 0 ∧
    (newBid < usub64 s.mBidPrice 100 ∨ s.mBidPrice + 100 < newBid))

/-- Handler `AutoTrader::OrderBookMessageHandler` of trader-2 (trader-2.cc lines
65-178).  Only future-instrument updates act (the ETF branch is commented out
in the source); the handler cancels a drifted quote per side (freeing that
side's tracked id immediately), refreshes the per-position quote volumes, and
then places at most one replacement order per free side. -/
def OrderBookMessageHandler (riskFactor : ℚ) (instrument : Instrument)
    (askPrices askVolumes bidPrices bidVolumes : Fin 5 → ℕ)
    (s : State) : State × List Command :=
  match instrument with
  | Instrument.etf => (s, [])
  | Instrument.future =>
      let newBid := newBidPrice askPrices askVolumes bidPrices bidVolumes
      let newAsk := newAskPrice askPrices askVolumes bidPrices bidVolumes
      let ca := cancelAskCond askPrices askVolumes bidPrices bidVolumes s
      let cb := cancelBidCond askPrices askVolumes bidPrices bidVolumes s
      let cancelCmds :=
        (if ca then [Command.cancelOrder s.mAskId] else []) ++
          (if cb then [Command.cancelOrder s.mBidId] else [])
      let s1 :=
        { s with
          mAskId := if ca then 0 else s.mAskId,
          mBidId := if cb then 0 else s.mBidId,
          mAskVolume := ask_vol_map riskFactor s.mPosition,
          mBidVolume := bid_vol_map riskFactor s.mPosition }
      let insAsk :=
        s1.mAskId = 0 ∧ newAsk ≠ 0 ∧ -POSITION_LIMIT < s1.mPosition ∧ s1.mAskVolume ≠ 0
      let s2 :=
        if insAsk then
          { s1 with
            mNextMessageId := s1.mNextMessageId + 1,
            mAskId := s1.mNextMessageId,
            mAskPrice := newAsk,
            mAsks := insert s1.mNextMessageId s1.mAsks }
        else s1
      let askCmds :=
        if insAsk then
          [Command.insertOrder s1.mNextMessageId Side.sell newAsk
            s1.mAskVolume.toNat Lifespan.goodForDay]
        else []
      let insBid :=
        s2.mBidId = 0 ∧ newBid ≠ 0 ∧ s2.mPosition < POSITION_LIMIT ∧ s2.mBidVolume ≠ 0
      let s3 :=
        if insBid then
          { s2 with
            mNextMessageId := s2.mNextMessageId + 1,
            mBidId := s2.mNextMessageId,
            mBidPrice := newBid,
            mBids := insert s2.mNextMessageId s2.mBids }
        else s2
      let bidCmds :=
        if insBid then
          [Command.insertOrder s2.mNextMessageId Side.buy newBid
            s2.mBidVolume.toNat Lifespan.goodForDay]
        else []
      (s3, cancelCmds ++ askCmds ++ bidCmds)

/-- Handler `AutoTrader::OrderFilledMessageHandler` of trader-2 (trader-2.cc lines
180-198); note this variant tests `mAsks` before `mBids`. -/
def OrderFilledMessageHandler (clientOrderId price volume : ℕ) (s : State) :
    State × List Command :=
  if clientOrderId ∈ s.mAsks then
    ({ s with mNextMessageId := s.mNextMessageId + 1, mPosition := s.mPosition - volume },
      [Command.hedgeOrder s.mNextMessageId Side.buy Trader3.MAX_ASK_NEAREST_TICK volume])
  else if clientOrderId ∈ s.mBids then
    ({ s with mNextMessageId := s.mNextMessageId + 1, mPosition := s.mPosition + volume },
      [Command.hedgeOrder s.mNextMessageId Side.sell Trader3.MIN_BID_NEARST_TICK volume])
  else (s, [])

/-- Handler `AutoTrader::OrderStatusMessageHandler` of trader-2 (trader-2.cc lines
200-219): on terminal status, clear the matching tracked id (ask tested
first) and drop the order from both ledgers. -/
def OrderStatusMessageHandler (clientOrderId fillVolume remainingVolume : ℕ) (fees : ℤ)
    (s : State) : State :=
  if remainingVolume = 0 then
    { s with
      mAskId := if clientOrderId = s.mAskId then 0 else s.mAskId,
      mBidId := if clientOrderId ≠ s.mAskId ∧ clientOrderId = s.mBidId then 0 else s.mBidId,
      mAsks := s.mAsks.erase clientOrderId,
      mBids := s.mBids.erase clientOrderId }
  else s

end Trader2

namespace Trader3

/-- A future-instrument book update establishing `futureBid = 10000`,
`futureAsk = 10100`. -/
def futureBookEvent (seq : ℕ) : Event :=
  Event.bookUpdate 0 Instrument.future seq
    ![10100, 10200, 10300, 10400, 10500] ![100, 100, 100, 100, 100]
    ![10000, 9900, 9800, 9700, 9600] ![100, 100, 100, 100, 100]

/-- Event trace refuting the position-limit invariant: after the future touch
is known, a normal ETF book triggers market making (five resting bids of 20
lots, ids 1-5, at 9000..9400), a crossed ETF book then triggers an arbitrage
buy of 20 lots (id 6), and each of the six live orders is filled exactly once
for exactly its placed volume. -/
def c1Events : List Event :=
  [ futureBookEvent 1,
    Event.bookUpdate 0 Instrument.etf 2
      ![10200, 10300, 10400, 10500, 10600] ![20, 20, 20, 20, 20]
      ![9000, 8900, 8800, 8700, 8600] ![20, 20, 20, 20, 20],
    Event.bookUpdate 0 Instrument.etf 3
      ![9900, 10000, 10100, 10200, 10300] ![20, 20, 20, 20, 20]
      ![9000, 8900, 8800, 8700, 8600] ![20, 20, 20, 20, 20],
    Event.orderFilled 0 1 9000 20,
    Event.orderFilled 0 2 9100 20,
    Event.orderFilled 0 3 9200 20,
    Event.orderFilled 0 4 9300 20,
    Event.orderFilled 0 5 9400 20,
    Event.orderFilled 0 6 9900 20 ]

/-- Event trace reaching position `-20` and then issuing an arbitrage buy of
40 lots: market making rests one 20-lot ask (id 1 at 10300; no bids, the bid
touch sits above `futureBid - 200`); the ask fills fully (hedge id 2); a
crossed ETF book then fires the arbitrage buy
(`min(40, ARBITRAGE_LIMIT - (-20)) = 40`, order id 3). -/
def c5Events : List Event :=
  [ futureBookEvent 1,
    Event.bookUpdate 0 Instrument.etf 2
      ![10400, 10500, 10600, 10700, 10800] ![20, 20, 20, 20, 20]
      ![9900, 8900, 8800, 8700, 8600] ![20, 20, 20, 20, 20],
    Event.orderFilled 0 1 10300 20,
    Event.bookUpdate 0 Instrument.etf 3
      ![9900, 10000, 10100, 10200, 10300] ![40, 20, 20, 20, 20]
      ![9000, 8900, 8800, 8700, 8600] ![20, 20, 20, 20, 20] ]

/-- The strategy state after accepting a future book update with sequence
number 5 (so `msgSeq = 5`, `futureBid = 10000`). -/
def c4State : State :=
  (OrderBookMessageHandler 0 Instrument.future 5
    ![10100, 10200, 10300, 10400, 10500] ![100, 100, 100, 100, 100]
    ![10000, 9900, 9800, 9700, 9600] ![100, 100, 100, 100, 100] initState).1

/-- The volume of an insert command, if the command is an insert. -/
def insertVolume : Command → Option ℕ
  | Command.insertOrder _ _ _ volume _ => some volume
  | _ => none

/-- Membership of a call time in the closed rolling window `[T, T + 1]` of
one second. -/
def inWindow (T : ℚ) : ℚ → Bool :=
  fun t => decide (T ≤ t ∧ t ≤ T + 1)

/-- Dispatch a resting-order placement to `sendBidOrder` or `sendAskOrder`. -/
def placeOrder (side : Side) (now : ℚ) (price : ℕ) (volume : ℤ) (lifespanType : Lifespan)
    (s : State) : Bool × State × List Command :=
  match side with
  | Side.buy => sendBidOrder now price volume lifespanType s
  | Side.sell => sendAskOrder now price volume lifespanType s

/-- The opposite order side. -/
def Side.opposite : Side → Side
  | Side.buy => Side.sell
  | Side.sell => Side.buy

/-- The price at which `OrderFilledMessageHandler` hedges a fill on an order
of the given side (trader-3.cc lines 299 and 305): a filled bid is hedged with
a sell at `MIN_BID_NEARST_TICK`, a filled ask with a buy at
`MAX_ASK_NEAREST_TICK`. -/
def hedgePrice : Side → ℕ
  | Side.buy => MIN_BID_NEARST_TICK
  | Side.sell => MAX_ASK_NEAREST_TICK

/-- Is the command a cancel request? -/
def isCancel : Command → Bool
  | Command.cancelOrder _ => true
  | _ => false

/-- State with three resting asks (ids 1-3 at 10300, 10400, 10500) and the
future touch at 10000/10100, used to exercise the market-making sweep. -/
def c9State : State :=
  { initState with
    mNextMessageId := 4,
    mAsks := [(1, 10300), (2, 10400), (3, 10500)],
    futureBid := 10000,
    futureAsk := 10100 }

/-- State with one pending buy-side hedge ticket (id 7). -/
def c10State : State :=
  { initState with hedgeBid := {7} }

end Trader3

namespace Trader2

open Trader3 (Side Lifespan Instrument Command)

/-- The level indexes of the reported top-five book. -/
def levelList : List (Fin 5) := [0, 1, 2, 3, 4]

/-- Volume-weighted average price of the bid and ask levels `0..k` under
unsigned integer division (`Σ price·volume / Σ volume`). -/
def vwapUpTo (askPrices askVolumes bidPrices bidVolumes : Fin 5 → ℕ) (k : ℕ) : ℕ :=
  (((levelList.take (k + 1)).map
      (fun i => bidPrices i * bidVolumes i + askPrices i * askVolumes i)).sum) /
    (((levelList.take (k + 1)).map (fun i => bidVolumes i + askVolumes i)).sum)

/-- Cumulative bid-plus-ask volume across levels `0..k`. -/
def cumVol (askVolumes bidVolumes : Fin 5 → ℕ) (k : ℕ) : ℕ :=
  ((levelList.take (k + 1)).map (fun i => bidVolumes i + askVolumes i)).sum

/-- Modelled from the spec: the PriceEstimator's level selection as the
specification words it - the smallest `k` at which cumulative bid+ask volume
reaches the 500-lot threshold, falling back to all available levels. -/
def selectSpec (askVolumes bidVolumes : Fin 5 → ℕ) : ℕ :=
  (((List.range 5).find? (fun k => decide (500 ≤ cumVol askVolumes bidVolumes k))).getD 4)

/-- Modelled from the spec: the theoretical price as the specification
describes it, for comparison against the source's `theo_price`. -/
def theoSpec (askPrices askVolumes bidPrices bidVolumes : Fin 5 → ℕ) : ℕ :=
  vwapUpTo askPrices askVolumes bidPrices bidVolumes (selectSpec askVolumes bidVolumes)

/-- Cumulative bid volume across levels `0..k`. -/
def bidCum (bidVolumes : Fin 5 → ℕ) (k : ℕ) : ℕ :=
  ((levelList.take (k + 1)).map bidVolumes).sum

/-- The level index the code actually uses: the smallest `k ≤ 1` whose
cumulative BID volume reaches 500, else 2. -/
def selectK (bidVolumes : Fin 5 → ℕ) : ℕ :=
  (((List.range 2).find? (fun k => decide (500 ≤ bidCum bidVolumes k))).getD 2)

/-- Is the command a sell-side (ask) insert? -/
def isAskInsert : Command → Bool
  | Command.insertOrder _ Side.sell _ _ _ => true
  | _ => false

/-- Is the command a buy-side (bid) insert? -/
def isBidInsert : Command → Bool
  | Command.insertOrder _ Side.buy _ _ _ => true
  | _ => false

/-- State with a live tracked ask (id 5, price 10000, in the ledger) and no
tracked bid, before any cancel confirmation. -/
def c7State : State :=
  { initState with mNextMessageId := 6, mAskId := 5, mAskPrice := 10000, mAsks := {5} }

/-- The result of one future-instrument book update against `c7State` with
`riskFactor = 0`: level-0 bid volume 600 puts the theo price at 10600, so the
new target ask `10700` drifts beyond the `±100` band of the live ask at
`10000`. -/
def c7Result : State × List Command :=
  OrderBookMessageHandler 0 Instrument.future
    ![10601, 10700, 10800, 0, 0] ![0, 0, 0, 0, 0]
    ![10600, 10500, 10400, 0, 0] ![600, 0, 0, 0, 0] c7State

end Trader2

/-- C1.  The claim states that in every reachable state the signed position
stays within `[-POSITION_LIMIT, POSITION_LIMIT] = [-100, 100]` after each fill.
The code breaks this: `handleArbitrage` caps its order against
`ARBITRAGE_LIMIT - mPosition` only, ignoring the exposure of the resting
market-making bids, so with five resting 20-lot bids and one 20-lot
arbitrage buy all filling (each exactly once, at its placed volume), the
position reaches `120 > 100`. -/
theorem position_limit_breach_trace :
    (Trader3.run 1 Trader3.c1Events Trader3.initState).map (fun r => r.1.mPosition) =
      some 120 ∧
    ¬(120 ≤ Trader3.POSITION_LIMIT) := by
  refine ⟨by decide, by decide⟩

/-- C4 counterexample: the claim says an update whose sequence number is less
than OR EQUAL TO the last accepted one changes no state and emits nothing, but
the handler's guard (`msgSeq = max(msgSeq, seq); if (seq != msgSeq) return`)
lets an update with a sequence number EQUAL to the last accepted one through:
after accepting a future update with sequence 5 (`futureBid = 10000`), a second
future update also numbered 5 is fully processed and overwrites the future touch
prices. -/
theorem stale_seq_counterexample :
    Trader3.c4State.msgSeq = 5 ∧ Trader3.c4State.futureBid = 10000 ∧
    (Trader3.OrderBookMessageHandler 0 Trader3.Instrument.future 5
        ![9100, 9200, 9300, 9400, 9500] ![100, 100, 100, 100, 100]
        ![9000, 8900, 8800, 8700, 8600] ![100, 100, 100, 100, 100]
        Trader3.c4State).1.futureBid = 9000 := by
  refine ⟨by decide, by decide,
    by decide⟩

/-- C4 (amended): a book update whose sequence number is STRICTLY LESS than
the last accepted one for the instrument stream changes no strategy state and
emits no outbound commands (the equal case is processed, see the
counterexample). -/
theorem stale_seq_frame (now : ℚ) (instr : Trader3.Instrument) (seq : ℕ)
    (ap av bp bv : Fin 5 → ℕ) (s : Trader3.State) (h : seq < s.msgSeq) :
    Trader3.OrderBookMessageHandler now instr seq ap av bp bv s = (s, []) := by
  have h1 : max s.msgSeq seq = s.msgSeq := max_eq_left (le_of_lt h)
  have h2 : seq ≠ s.msgSeq := Nat.ne_of_lt h
  simp only [Trader3.OrderBookMessageHandler, h1]
  rw [if_pos h2]

/-- Witness for `stale_seq_frame` at a concrete state with `msgSeq = 5` and a
stale update numbered 3. -/
theorem stale_seq_frame_witness :
    Trader3.OrderBookMessageHandler 0 Trader3.Instrument.future 3
        ![9100, 9200, 9300, 9400, 9500] ![100, 100, 100, 100, 100]
        ![9000, 8900, 8800, 8700, 8600] ![100, 100, 100, 100, 100]
        Trader3.c4State = (Trader3.c4State, []) :=
  stale_seq_frame 0 Trader3.Instrument.future 3
    ![9100, 9200, 9300, 9400, 9500] ![100, 100, 100, 100, 100]
    ![9000, 8900, 8800, 8700, 8600] ![100, 100, 100, 100, 100]
    Trader3.c4State (by decide)

/-- C5 counterexample: the claim bounds every arbitrage trade by
`ARBITRAGE_LIMIT - |position|`.  The code instead uses the SIGNED position
(`ARBITRAGE_LIMIT - mPosition` for buys): after a filled market-making ask
takes the position to `-20`, a crossed ETF book makes the code issue an
arbitrage buy of `min(40, 20 - (-20)) = 40` lots, although
`ARBITRAGE_LIMIT - |-20| = 0`. -/
theorem arbitrage_capacity_counterexample :
    (Trader3.run 1 (Trader3.c5Events.take 3) Trader3.initState).map
        (fun r => r.1.mPosition) = some (-20) ∧
    (Trader3.run 1 Trader3.c5Events Trader3.initState).map (fun r => r.2.getLast?) =
      some (some (Trader3.Command.insertOrder 3 Trader3.Side.buy 9900 40
        Trader3.Lifespan.fillAndKill)) ∧
    ¬((40 : ℤ) ≤ Trader3.ARBITRAGE_LIMIT - |(-20 : ℤ)|) := by
  exact ⟨by decide, by decide, by decide⟩

/-- C5 (amended): every insert issued by `handleArbitrage` has volume
`min(ask touch volume, ARBITRAGE_LIMIT - position)` (buy side) or
`min(bid touch volume, ARBITRAGE_LIMIT + position)` (sell side) - the capacity
term uses the signed position - and in particular never exceeds
`ARBITRAGE_LIMIT + |position|`. -/
theorem arbitrage_volume_formula (now : ℚ) (ap av bp bv : Fin 5 → ℕ)
    (s : Trader3.State) :
    ∀ c ∈ (Trader3.handleArbitrage now ap av bp bv s).2, ∀ v : ℕ,
      Trader3.insertVolume c = some v →
      ((v : ℤ) = min ((av 0 : ℕ) : ℤ) (Trader3.ARBITRAGE_LIMIT - s.mPosition) ∨
        (v : ℤ) = min ((bv 0 : ℕ) : ℤ) (Trader3.ARBITRAGE_LIMIT + s.mPosition)) ∧
      (v : ℤ) ≤ Trader3.ARBITRAGE_LIMIT + |s.mPosition| := by
  intro c hc v hv
  simp only [Trader3.handleArbitrage, Trader3.sendBidOrder, Trader3.sendAskOrder] at hc
  split_ifs at hc with hbr hpos hok hbr2 hpos2 hok2 <;>
    simp only [List.mem_singleton, List.not_mem_nil] at hc
  · subst hc
    simp only [Trader3.insertVolume, Option.some.injEq] at hv
    subst hv
    rw [Int.toNat_of_nonneg (le_of_lt hpos)]
    refine ⟨Or.inl rfl, ?_⟩
    have hm := min_le_right ((av 0 : ℕ) : ℤ) (Trader3.ARBITRAGE_LIMIT - s.mPosition)
    have habs := neg_le_abs s.mPosition
    linarith
  · subst hc
    simp only [Trader3.insertVolume, Option.some.injEq] at hv
    subst hv
    rw [Int.toNat_of_nonneg (le_of_lt hpos2)]
    refine ⟨Or.inr rfl, ?_⟩
    have hm := min_le_right ((bv 0 : ℕ) : ℤ) (Trader3.ARBITRAGE_LIMIT + s.mPosition)
    have habs := le_abs_self s.mPosition
    linarith

/-- Witness for `arbitrage_volume_formula` on the crossed book
`ask touch 9900 < futureBid 10000` against `c4State` (position 0): the issued
buy has volume `min(100, 20 - 0) = 20 ≤ 20 + |0|`. -/
theorem arbitrage_volume_formula_witness :
    ((20 : ℤ) = min ((![100, 20, 20, 20, 20] (0 : Fin 5) : ℕ) : ℤ)
        (Trader3.ARBITRAGE_LIMIT - Trader3.c4State.mPosition) ∨
      (20 : ℤ) = min ((![20, 20, 20, 20, 20] (0 : Fin 5) : ℕ) : ℤ)
        (Trader3.ARBITRAGE_LIMIT + Trader3.c4State.mPosition)) ∧
    (20 : ℤ) ≤ Trader3.ARBITRAGE_LIMIT + |Trader3.c4State.mPosition| :=
  arbitrage_volume_formula 0 ![9900, 10000, 10100, 10200, 10300] ![100, 20, 20, 20, 20]
    ![9000, 8900, 8800, 8700, 8600] ![20, 20, 20, 20, 20] Trader3.c4State
    (Trader3.Command.insertOrder 1 Trader3.Side.buy 9900 20 Trader3.Lifespan.fillAndKill)
    (by decide) 20 (by decide)

namespace Trader3

/-- Function `ratSub` is ordinary subtraction on `ℚ`. -/
theorem ratSub_eq (a b : ℚ) : ratSub a b = a - b := by
  have ha : ((a.den : ℤ)) ≠ 0 := Int.natCast_ne_zero.mpr a.den_nz
  have hb : ((b.den : ℤ)) ≠ 0 := Int.natCast_ne_zero.mpr b.den_nz
  rw [ratSub, ← Rat.divInt_sub_divInt _ _ ha hb, Rat.num_divInt_den, Rat.num_divInt_den]

/-- The eviction bound constant is `1.01` seconds. -/
theorem messageWindow_eq : messageWindow = 101 / 100 := by
  rw [messageWindow, Rat.divInt_eq_div]
  norm_num

/-- Every admitted time returned by `runLimiter` is one of the call times. -/
theorem runLimiter_admits_mem :
    ∀ (ts q : List ℚ) (x : ℚ), x ∈ (runLimiter ts q).1 → x ∈ ts := by
  intro ts
  induction ts with
  | nil => intro q x hx; simp [runLimiter] at hx
  | cons t ts ih =>
      intro q x hx
      simp only [runLimiter] at hx
      by_cases h : (checkMessageLimit t q).1
      · rw [if_pos h] at hx
        rcases List.mem_cons.mp hx with h1 | h2
        · exact h1 ▸ List.mem_cons_self _ _
        · exact List.mem_cons_of_mem _ (ih _ _ h2)
      · rw [if_neg h] at hx
        exact List.mem_cons_of_mem _ (ih _ _ hx)

/-- Eviction at a call time inside or before the window `[T, T + 1]` never
discards an in-window timestamp: everything dropped is older than
`now - 1.01 < T`. -/
theorem countP_window_dropWhile (T now : ℚ) (h : now ≤ T + 1) (q : List ℚ) :
    (q.dropWhile (fun t => decide (t < ratSub now messageWindow))).countP (inWindow T) =
      q.countP (inWindow T) := by
  conv_rhs =>
    rw [← List.takeWhile_append_dropWhile (fun t => decide (t < ratSub now messageWindow)) q]
  rw [List.countP_append]
  have hz : (q.takeWhile (fun t => decide (t < ratSub now messageWindow))).countP
      (inWindow T) = 0 := by
    rw [List.countP_eq_zero]
    intro a ha
    have h1 : a < ratSub now messageWindow := by
      simpa using List.mem_takeWhile_imp ha
    rw [ratSub_eq, messageWindow_eq] at h1
    simp only [inWindow, decide_eq_true_eq]
    rintro ⟨h2, _⟩
    linarith
  omega

/-- Window-bound invariant for `runLimiter`: with nondecreasing call times and
a deque of at most 50 entries, the number of newly admitted in-window times
plus the in-window entries already in the deque never exceeds 50. -/
theorem runLimiter_window_aux (T : ℚ) :
    ∀ (ts q : List ℚ), List.Sorted (· ≤ ·) ts → q.length ≤ 50 →
      (runLimiter ts q).1.countP (inWindow T) + q.countP (inWindow T) ≤ 50 := by
  intro ts
  induction ts with
  | nil =>
      intro q _ hq
      simpa [runLimiter] using le_trans (List.countP_le_length _) hq
  | cons t ts ih =>
      intro q hsort hq
      obtain ⟨hall, hsort2⟩ := List.sorted_cons.mp hsort
      by_cases hT : t ≤ T + 1
      · have hq1len : (q.dropWhile (fun u => decide (u < ratSub t messageWindow))).length ≤
            q.length := (List.dropWhile_sublist _).length_le
        have hq1cnt := countP_window_dropWhile T t hT q
        by_cases hlen :
            50 ≤ (q.dropWhile (fun u => decide (u < ratSub t messageWindow))).length
        · have hck : checkMessageLimit t q =
              (false, q.dropWhile (fun u => decide (u < ratSub t messageWindow))) := by
            simp [checkMessageLimit, hlen]
          simp only [runLimiter, hck, Bool.false_eq_true, if_false]
          have hrec := ih (q.dropWhile (fun u => decide (u < ratSub t messageWindow)))
            hsort2 (le_trans hq1len hq)
          rw [hq1cnt] at hrec
          simpa using hrec
        · have hck : checkMessageLimit t q =
              (true, q.dropWhile (fun u => decide (u < ratSub t messageWindow)) ++ [t]) := by
            simp [checkMessageLimit, hlen]
          simp only [runLimiter, hck, if_true]
          have hlen2 : (q.dropWhile (fun u => decide (u < ratSub t messageWindow)) ++
              [t]).length ≤ 50 := by
            rw [List.length_append, List.length_singleton]
            omega
          have hrec := ih (q.dropWhile (fun u => decide (u < ratSub t messageWindow)) ++ [t])
            hsort2 hlen2
          rw [List.countP_append, hq1cnt] at hrec
          rw [List.countP_cons]
          have hone : ([t].countP (inWindow T)) =
              if inWindow T t = true then 1 else 0 := by
            rw [List.countP_cons]
            simp
          rw [hone] at hrec
          omega
      · have hzero : (runLimiter (t :: ts) q).1.countP (inWindow T) = 0 := by
          rw [List.countP_eq_zero]
          intro a ha
          have hmem := runLimiter_admits_mem (t :: ts) q a ha
          have hta : t ≤ a := by
            rcases List.mem_cons.mp hmem with rfl | h2
            · exact le_refl a
            · exact hall a h2
          push_neg at hT
          simp only [inWindow, decide_eq_true_eq]
          rintro ⟨h1, h2⟩
          linarith
        rw [hzero]
        simpa using le_trans (List.countP_le_length _) hq

end Trader3

/-- C2: for every nondecreasing sequence of wall-clock call times, the calls
that `checkMessageLimit` admits (modelled by `runLimiter`, which iterates the
evict-test-record body of the source) number at most 50 inside any rolling
one-second window `[T, T + 1]`. -/
theorem rate_limiter_window_bound (calls : List ℚ) (T : ℚ)
    (hsorted : List.Sorted (· ≤ ·) calls) :
    ((Trader3.runLimiter calls []).1.countP (Trader3.inWindow T)) ≤ 50 := by
  simpa using Trader3.runLimiter_window_aux T calls [] hsorted (by simp)

/-- Witness for `rate_limiter_window_bound` on the call times `0, 0, 1`. -/
theorem rate_limiter_window_bound_witness :
    ((Trader3.runLimiter [0, 0, 1] []).1.countP (Trader3.inWindow 0)) ≤ 50 :=
  rate_limiter_window_bound [0, 0, 1] 0 (by decide)

namespace Trader3

/-- After `mapErase`, the erased key is gone. -/
theorem hasKey_mapErase (m : List (ℕ × ℕ)) (k : ℕ) :
    hasKey (mapErase m k) k = false := by
  rw [hasKey, List.any_eq_false]
  intro kv hkv
  have h1 := (List.mem_filter.mp hkv).2
  simp only [bne_iff_ne, ne_eq] at h1
  simp [h1]

/-- A binding appended on the right is found by `hasKey`. -/
theorem hasKey_append (m : List (ℕ × ℕ)) (k v : ℕ) :
    hasKey (m ++ [(k, v)]) k = true := by
  rw [hasKey, List.any_eq_true]
  exact ⟨(k, v), by simp⟩

/-- A hedge send whose first rate-limit attempt is admitted: the hedge is
issued immediately with the next message id. -/
theorem sendHedgeOrder_adm (price volume : ℕ) (side : Side) (now : ℚ) (s : State)
    (h : ((s.orderTimestamps).dropWhile
      (fun t => decide (t < ratSub now messageWindow))).length < 50) :
    sendHedgeOrder price volume side 1 now s =
      some
        ({ s with
            orderTimestamps := (s.orderTimestamps.dropWhile
              (fun t => decide (t < ratSub now messageWindow))) ++ [now],
            mNextMessageId := s.mNextMessageId + 1,
            hedgeBid :=
              if side = Side.buy then insert s.mNextMessageId s.hedgeBid else s.hedgeBid,
            hedgeAsk :=
              if side = Side.buy then s.hedgeAsk else insert s.mNextMessageId s.hedgeAsk },
          [Command.hedgeOrder s.mNextMessageId side price volume]) := by
  have hlt : ¬(50 ≤ ((s.orderTimestamps).dropWhile
      (fun t => decide (t < ratSub now messageWindow))).length) := by omega
  simp [sendHedgeOrder, checkMessageLimit, hlt]

end Trader3


/-- C3: placing a resting order (either side; the rate limiter admits the
placement and the hedge), then receiving its full fill followed by a status
report with remaining volume zero, removes the order from the ledger
(`mBids`/`mAsks`), and the fill triggers exactly one hedge command whose
volume equals the fill volume and whose side is opposite the filled order's
side. -/
theorem order_roundtrip_hedge (s : Trader3.State) (side : Trader3.Side) (now now2 : ℚ)
    (price fillPrice w : ℕ) (v fees : ℤ)
    (hfb : Trader3.hasKey s.mBids s.mNextMessageId = false)
    (hfa : Trader3.hasKey s.mAsks s.mNextMessageId = false)
    (hplace : (Trader3.placeOrder side now price v Trader3.Lifespan.goodForDay s).1 = true)
    (hadm : (((Trader3.placeOrder side now price v Trader3.Lifespan.goodForDay
        s).2.1.orderTimestamps).dropWhile
        (fun t => decide (t < Trader3.ratSub now2 Trader3.messageWindow))).length < 50) :
    ∃ s2 cmds,
      Trader3.OrderFilledMessageHandler 1 now2 s.mNextMessageId fillPrice w
          ((Trader3.placeOrder side now price v Trader3.Lifespan.goodForDay s).2.1) =
        some (s2, cmds) ∧
      cmds = [Trader3.Command.hedgeOrder (s.mNextMessageId + 1) side.opposite
        (Trader3.hedgePrice side) w] ∧
      Trader3.hasKey (Trader3.OrderStatusMessageHandler s.mNextMessageId w 0 fees s2).mBids
        s.mNextMessageId = false ∧
      Trader3.hasKey (Trader3.OrderStatusMessageHandler s.mNextMessageId w 0 fees s2).mAsks
        s.mNextMessageId = false := by
  cases side
  case buy =>
    by_cases hok : (Trader3.checkMessageLimit now s.orderTimestamps).1
    case neg =>
      simp [Trader3.placeOrder, Trader3.sendBidOrder, hok] at hplace
    case pos =>
      simp only [Trader3.placeOrder, Trader3.sendBidOrder, if_pos hok] at hadm ⊢
      rw [Trader3.mapAssign, if_neg (by simp [hfb])]
      simp only [Trader3.OrderFilledMessageHandler, Trader3.hasKey_append, if_pos rfl]
      rw [Trader3.sendHedgeOrder_adm _ _ _ _ _ (by exact hadm)]
      refine ⟨_, _, rfl, rfl, ?_, ?_⟩
      · simp only [Trader3.OrderStatusMessageHandler, if_pos rfl]
        exact Trader3.hasKey_mapErase _ _
      · simp only [Trader3.OrderStatusMessageHandler, if_pos rfl]
        exact Trader3.hasKey_mapErase _ _
  case sell =>
    by_cases hok : (Trader3.checkMessageLimit now s.orderTimestamps).1
    case neg =>
      simp [Trader3.placeOrder, Trader3.sendAskOrder, hok] at hplace
    case pos =>
      simp only [Trader3.placeOrder, Trader3.sendAskOrder, if_pos hok] at hadm ⊢
      rw [Trader3.mapAssign, if_neg (by simp [hfa])]
      simp only [Trader3.OrderFilledMessageHandler, hfb, Bool.false_eq_true, if_false,
        Trader3.hasKey_append, if_pos rfl]
      rw [Trader3.sendHedgeOrder_adm _ _ _ _ _ (by exact hadm)]
      refine ⟨_, _, rfl, rfl, ?_, ?_⟩
      · simp only [Trader3.OrderStatusMessageHandler, if_pos rfl]
        exact Trader3.hasKey_mapErase _ _
      · simp only [Trader3.OrderStatusMessageHandler, if_pos rfl]
        exact Trader3.hasKey_mapErase _ _

/-- Witness for `order_roundtrip_hedge`: a 20-lot bid at 9000 placed from the
initial state, filled in full and confirmed. -/
theorem order_roundtrip_hedge_witness :
    ∃ s2 cmds,
      Trader3.OrderFilledMessageHandler 1 0 Trader3.initState.mNextMessageId 9000 20
          ((Trader3.placeOrder Trader3.Side.buy 0 9000 20 Trader3.Lifespan.goodForDay
            Trader3.initState).2.1) =
        some (s2, cmds) ∧
      cmds = [Trader3.Command.hedgeOrder (Trader3.initState.mNextMessageId + 1)
        (Trader3.Side.opposite Trader3.Side.buy) (Trader3.hedgePrice Trader3.Side.buy) 20] ∧
      Trader3.hasKey (Trader3.OrderStatusMessageHandler Trader3.initState.mNextMessageId 20 0 0
        s2).mBids Trader3.initState.mNextMessageId = false ∧
      Trader3.hasKey (Trader3.OrderStatusMessageHandler Trader3.initState.mNextMessageId 20 0 0
        s2).mAsks Trader3.initState.mNextMessageId = false :=
  order_roundtrip_hedge Trader3.initState Trader3.Side.buy 0 0 9000 9000 20 20 0
    (by decide) (by decide) (by decide) (by decide)

namespace Trader2

/-- Clamping below at zero is `max 0`. -/
theorem ite_neg_eq_max (v : ℤ) : (if v < 0 then 0 else v) = max 0 v := by
  rcases lt_or_le v 0 with h | h
  · rw [if_pos h, max_eq_left (le_of_lt h)]
  · rw [if_neg (not_lt.mpr h), max_eq_right h]

end Trader2

/-- C6 counterexample: the claim's formula
`askVolume(p) = max(0, floor((LIMIT - |p| - rf)/2) - floor(rf/2))` disagrees
with the code at `p = 100`, `rf = 0`: the code computes
`floor((100 + |100|)/2) = 100` (it ADDS `|p|` for non-negative positions),
the claimed formula gives `0`. -/
theorem ask_volume_formula_counterexample :
    Trader2.ask_vol 0 100 = 100 ∧ Trader2.askVolSpec 0 100 = 0 ∧
    ¬Trader2.ask_vol 0 100 = Trader2.askVolSpec 0 100 := by
  have h1 : Trader2.ask_vol 0 100 = 100 := by
    rw [Trader2.ask_vol]
    norm_num
  have h2 : Trader2.askVolSpec 0 100 = 0 := by
    rw [Trader2.askVolSpec]
    norm_num
  refine ⟨h1, h2, ?_⟩
  rw [h1, h2]
  decide

/-- C6 (amended): for every position `p` and risk factor `rf`, the
precomputed volumes satisfy
`bidVolume(p) = max(0, floor((100 - p - rf)/2) - floor(rf/2))` exactly as
claimed, while
`askVolume(p) = max(0, floor((100 + p - rf)/2) - floor(rf/2))`: both branches
of the code's `|p|` case split add the signed position, so the ask formula
uses `LIMIT + p`, not `LIMIT - |p|`. -/
theorem quote_volume_formulas (rf : ℚ) (p : ℤ) :
    Trader2.bid_vol rf p =
      max 0 (Int.floor ((100 - (p : ℚ) - rf) / 2) - Int.floor (rf / 2)) ∧
    Trader2.ask_vol rf p =
      max 0 (Int.floor ((100 + (p : ℚ) - rf) / 2) - Int.floor (rf / 2)) := by
  constructor
  · rw [Trader2.bid_vol, Trader2.ite_neg_eq_max]
  · rw [Trader2.ask_vol]
    rcases lt_or_le p 0 with hp | hp
    · rw [if_pos hp]
      have habs : |(p : ℚ)| = -(p : ℚ) := abs_of_neg (by exact_mod_cast hp)
      have harg : (100 - |(p : ℚ)| - rf) = 100 + (p : ℚ) - rf := by
        rw [habs]; ring
      rw [harg, Trader2.ite_neg_eq_max]
    · rw [if_neg (not_lt.mpr hp)]
      have habs : |(p : ℚ)| = (p : ℚ) := abs_of_nonneg (by exact_mod_cast hp)
      have harg : (100 + |(p : ℚ)| - rf) = 100 + (p : ℚ) - rf := by
        rw [habs]
      rw [harg, Trader2.ite_neg_eq_max]

/-- C7 counterexample: the claim says a replacement order is placed only after
a cancel CONFIRMATION has freed the side, so that two live orders never rest
on one side.  In the code the tracked id is zeroed the moment the cancel
request is SENT, and the replacement is placed in the same book-update cycle:
from `c7State` (live ask id 5), one future update emits the cancel of 5 and
the inserts of ask 6 and bid 7 together, leaving both 5 and 6 in the ask
ledger with no status event in between. -/
theorem same_cycle_replacement_counterexample :
    Trader2.c7Result.2 =
      [Trader3.Command.cancelOrder 5,
       Trader3.Command.insertOrder 6 Trader3.Side.sell 10700 50 Trader3.Lifespan.goodForDay,
       Trader3.Command.insertOrder 7 Trader3.Side.buy 10500 50 Trader3.Lifespan.goodForDay] ∧
    Trader2.c7Result.1.mAsks = {5, 6} := by
  have hav : Trader2.ask_vol_map 0 (0 : ℤ) = 50 := by
    rw [Trader2.ask_vol_map, if_pos (by norm_num), Trader2.ask_vol]
    norm_num
  have hbv : Trader2.bid_vol_map 0 (0 : ℤ) = 50 := by
    rw [Trader2.bid_vol_map, if_pos (by norm_num), Trader2.bid_vol]
    norm_num
  constructor <;>
  · simp only [Trader2.c7Result, Trader2.OrderBookMessageHandler, Trader2.c7State,
      Trader2.initState, Trader2.cancelAskCond, Trader2.cancelBidCond,
      Trader2.newAskPrice, Trader2.newBidPrice, Trader2.theo_price, hav, hbv]
    decide

/-- C7 (amended): on each future-instrument book update, at most one insert is
issued per side, and a side's replacement is placed exactly when that side's
tracked id is free - either it was already zero or it was zeroed in this same
cycle by ISSUING the cancel (without awaiting its confirmation) - the computed
target price is non-zero, the position is strictly inside the limit, and the
side's assigned volume is non-zero.  The previously cancelled order stays in
the ledger until its terminal status, so two orders can briefly rest on the
same side. -/
theorem replacement_gating (rf : ℚ) (ap av bp bv : Fin 5 → ℕ) (s : Trader2.State) :
    ((Trader2.OrderBookMessageHandler rf Trader3.Instrument.future ap av bp bv s).2.filter
        Trader2.isAskInsert) =
      (if (if Trader2.cancelAskCond ap av bp bv s then 0 else s.mAskId) = 0 ∧
          Trader2.newAskPrice ap av bp bv ≠ 0 ∧
          -Trader2.POSITION_LIMIT < s.mPosition ∧ Trader2.ask_vol_map rf s.mPosition ≠ 0
       then [Trader3.Command.insertOrder s.mNextMessageId Trader3.Side.sell
         (Trader2.newAskPrice ap av bp bv) (Trader2.ask_vol_map rf s.mPosition).toNat
         Trader3.Lifespan.goodForDay]
       else []) ∧
    ((Trader2.OrderBookMessageHandler rf Trader3.Instrument.future ap av bp bv s).2.filter
        Trader2.isBidInsert) =
      (if (if Trader2.cancelBidCond ap av bp bv s then 0 else s.mBidId) = 0 ∧
          Trader2.newBidPrice ap av bp bv ≠ 0 ∧
          s.mPosition < Trader2.POSITION_LIMIT ∧ Trader2.bid_vol_map rf s.mPosition ≠ 0
       then [Trader3.Command.insertOrder
         (if (if Trader2.cancelAskCond ap av bp bv s then 0 else s.mAskId) = 0 ∧
             Trader2.newAskPrice ap av bp bv ≠ 0 ∧
             -Trader2.POSITION_LIMIT < s.mPosition ∧ Trader2.ask_vol_map rf s.mPosition ≠ 0
          then s.mNextMessageId + 1 else s.mNextMessageId) Trader3.Side.buy
         (Trader2.newBidPrice ap av bp bv) (Trader2.bid_vol_map rf s.mPosition).toNat
         Trader3.Lifespan.goodForDay]
       else []) := by
  simp only [Trader2.OrderBookMessageHandler]
  split_ifs <;>
    simp_all [List.filter_append, Trader2.isAskInsert, Trader2.isBidInsert]

/-- C8 counterexample: the claim's estimator accumulates BID+ASK volume and
stops at the smallest threshold-reaching level (using all available levels as
fallback); the code tests cumulative BID volume only and never looks past
level 2.  On a book whose level-0 bid+ask volume is `100 + 600 = 700 ≥ 500`
the claimed estimator uses level 0 only (`3100000 / 700 = 4428`), while the
code (bid volume `100 < 500`, `200 < 500`) averages levels 0-2
(`3600000 / 900 = 4000`). -/
theorem theo_price_counterexample :
    Trader2.theo_price ![5000, 5100, 5200, 0, 0] ![600, 0, 0, 0, 0]
        ![1000, 2000, 3000, 0, 0] ![100, 100, 100, 0, 0] = 4000 ∧
    Trader2.theoSpec ![5000, 5100, 5200, 0, 0] ![600, 0, 0, 0, 0]
        ![1000, 2000, 3000, 0, 0] ![100, 100, 100, 0, 0] = 4428 ∧
    ¬Trader2.theo_price ![5000, 5100, 5200, 0, 0] ![600, 0, 0, 0, 0]
        ![1000, 2000, 3000, 0, 0] ![100, 100, 100, 0, 0] =
      Trader2.theoSpec ![5000, 5100, 5200, 0, 0] ![600, 0, 0, 0, 0]
        ![1000, 2000, 3000, 0, 0] ![100, 100, 100, 0, 0] := by
  refine ⟨by decide, by decide, by decide⟩

/-- C8 (amended): the theoretical price equals the volume-weighted average
price over the bid and ask levels `0..k`, where `k` is the smallest index at
which the cumulative BID volume reaches 500, capped at the first three levels
(`k = 2` is the fallback; ask volumes play no part in the level selection). -/
theorem theo_price_bid_levels (ap av bp bv : Fin 5 → ℕ) :
    Trader2.theo_price ap av bp bv = Trader2.vwapUpTo ap av bp bv (Trader2.selectK bv) := by
  have hc0 : Trader2.bidCum bv 0 = bv 0 := by
    simp [Trader2.bidCum, Trader2.levelList]
  have hc1 : Trader2.bidCum bv 1 = bv 0 + bv 1 := by
    simp [Trader2.bidCum, Trader2.levelList]
  have hrange : (List.range 2) = [0, 1] := rfl
  rw [Trader2.theo_price, Trader2.selectK, hrange]
  by_cases h0 : 500 ≤ bv 0
  · rw [if_pos h0]
    rw [List.find?_cons_of_pos _ (by rw [hc0]; exact decide_eq_true h0)]
    simp [Trader2.vwapUpTo, Trader2.levelList]
  · rw [if_neg h0]
    rw [List.find?_cons_of_neg _ (by rw [hc0]; simp [h0])]
    by_cases h1 : 500 ≤ bv 0 + bv 1
    · rw [if_pos h1]
      rw [List.find?_cons_of_pos _ (by rw [hc1]; exact decide_eq_true h1)]
      simp only [Option.getD_some, Trader2.vwapUpTo, Trader2.levelList,
        List.take_succ_cons, List.take_zero, List.map_cons, List.map_nil,
        List.sum_cons, List.sum_nil, add_zero]
      congr 1 <;> ring
    · rw [if_neg h1]
      rw [List.find?_cons_of_neg _ (by rw [hc1]; simp [h1]),
        List.find?_nil]
      simp only [Option.getD_none, Trader2.vwapUpTo, Trader2.levelList,
        List.take_succ_cons, List.take_zero, List.map_cons, List.map_nil,
        List.sum_cons, List.sum_nil, add_zero]
      congr 1 <;> ring

/-- C9: the claim describes `clearBook`'s sweep (cancel asks at or above the
level where cumulative ask depth first reaches `3 * LOT_SIZE`, bid mirror),
but `handleMarketMaking` (trader-3.cc line 192) passes
`(askPrices, bidPrices, askVolumes, bidVolumes)` into `clearBook`'s parameter
list `(askPrices, askVolumes, bidPrices, bidVolumes)`, so bid PRICES are
accumulated as ask depth and an ask VOLUME becomes the bid price cutoff.  On a
book whose cumulative ask volume first reaches 60 at level 2 (price 10500, as
`cutoff` on the correctly ordered arrays shows), the sweep should cancel only
the resting ask at 10500 (id 3); the code cancels all three resting asks,
including both at the touch. -/
theorem clearBook_swapped_args_bug :
    ((Trader3.handleMarketMaking 0 ![10300, 10400, 10500, 10600, 10700] ![20, 20, 20, 20, 20]
        ![9000, 8900, 8800, 8700, 8600] ![20, 20, 20, 20, 20] Trader3.c9State).2.filter
      Trader3.isCancel) =
      [Trader3.Command.cancelOrder 1, Trader3.Command.cancelOrder 2,
        Trader3.Command.cancelOrder 3] ∧
    Trader3.cutoff ![10300, 10400, 10500, 10600, 10700] ![20, 20, 20, 20, 20] = 10500 ∧
    ¬((Trader3.handleMarketMaking 0 ![10300, 10400, 10500, 10600, 10700] ![20, 20, 20, 20, 20]
        ![9000, 8900, 8800, 8700, 8600] ![20, 20, 20, 20, 20] Trader3.c9State).2.filter
      Trader3.isCancel) = [Trader3.Command.cancelOrder 3] := by
  refine ⟨by decide, by decide, by decide⟩

/-- C10: a hedge-filled event emits no commands; for an id in the pending
buy-side set it erases the id and raises the running delta by exactly the
reported volume (so a zero-volume "unsuccessful hedge" report leaves the delta
unchanged, is still removed from pending tracking, and triggers no replacement
hedge); symmetrically for the sell side (delta lowered); an unknown id leaves
the state untouched. -/
theorem hedge_filled_cases (s : Trader3.State) (id price volume : ℕ) :
    (Trader3.HedgeFilledMessageHandler id price volume s).2 = [] ∧
    (id ∈ s.hedgeBid →
      (Trader3.HedgeFilledMessageHandler id price volume s).1 =
        { s with hedgeBid := s.hedgeBid.erase id, delta := s.delta + volume } ∧
      id ∉ (Trader3.HedgeFilledMessageHandler id price volume s).1.hedgeBid) ∧
    (id ∉ s.hedgeBid → id ∈ s.hedgeAsk →
      (Trader3.HedgeFilledMessageHandler id price volume s).1 =
        { s with hedgeAsk := s.hedgeAsk.erase id, delta := s.delta - volume } ∧
      id ∉ (Trader3.HedgeFilledMessageHandler id price volume s).1.hedgeAsk) ∧
    (id ∉ s.hedgeBid → id ∉ s.hedgeAsk →
      (Trader3.HedgeFilledMessageHandler id price volume s).1 = s) := by
  refine ⟨?_, ?_, ?_, ?_⟩
  · simp only [Trader3.HedgeFilledMessageHandler]
    split_ifs <;> rfl
  · intro h
    simp only [Trader3.HedgeFilledMessageHandler, if_pos h]
    exact ⟨trivial, Finset.not_mem_erase _ _⟩
  · intro h1 h2
    simp only [Trader3.HedgeFilledMessageHandler, if_neg h1, if_pos h2]
    exact ⟨trivial, Finset.not_mem_erase _ _⟩
  · intro h1 h2
    simp only [Trader3.HedgeFilledMessageHandler, if_neg h1, if_neg h2]

/-- Witness for `hedge_filled_cases`: the pending buy-side hedge id 7 of
`c10State` reported unsuccessful (price and volume zero). -/
theorem hedge_filled_cases_witness :
    (Trader3.HedgeFilledMessageHandler 7 0 0 Trader3.c10State).2 = [] ∧
    (Trader3.HedgeFilledMessageHandler 7 0 0 Trader3.c10State).1 =
      { Trader3.c10State with
        hedgeBid := Trader3.c10State.hedgeBid.erase 7,
        delta := Trader3.c10State.delta + (0 : ℕ) } ∧
    7 ∉ (Trader3.HedgeFilledMessageHandler 7 0 0 Trader3.c10State).1.hedgeBid :=
  ⟨(hedge_filled_cases Trader3.c10State 7 0 0).1,
   ((hedge_filled_cases Trader3.c10State 7 0 0).2.1 (by decide)).1,
   ((hedge_filled_cases Trader3.c10State 7 0 0).2.1 (by decide)).2⟩
